import Mathlib

/-!
Model of the py-ninja repository: the Temperature value type of
src/ninja/units.py and the Device polling logic of src/ninja/devices.py.
Python Decimal values are modelled as exact rational numbers; Python
exceptions are modelled as an explicit error component returned next to the
resulting object state, so that the clamp-then-raise behaviour of the
Temperature invariant check stays observable.
-/

/-- Python exceptions raised by the modelled code. The valueError
    constructor carries the offending Kelvin value that units.py line 99
    interpolates into the message string. -/
inductive PyErr where
  | typeError : PyErr
  | valueError : ℚ → PyErr
  | zeroDivisionError : PyErr
deriving DecidableEq

/-- A Python value handed to a Temperature attribute write: either a value
    the Decimal constructor accepts (int, float, Decimal), modelled by the
    exact rational it denotes, or a value it rejects (for example None). -/
inductive PyVal where
  | num : ℚ → PyVal
  | nonNumeric : PyVal
deriving DecidableEq

/-- Conversion through the Decimal constructor (units.py line 90): exact on
    numeric values, failing otherwise. -/
def pyDecimal : PyVal → Option ℚ
  | PyVal.num q => some q
  | PyVal.nonNumeric => none

/-- One row of the unit conversion table, read as
    value = (k + shiftIn) * scale + shiftOut. -/
structure TempEq where
  scale : ℚ
  shiftIn : ℚ
  shiftOut : ℚ
deriving DecidableEq

/-- Conversion table Temperature.equations (units.py lines 69-73). -/
def equations (name : String) : Option TempEq :=
  if name = "c" then some ⟨1, 0, -273.15⟩
  else if name = "f" then some ⟨1.8, -273.15, 32⟩
  else if name = "r" then some ⟨1.8, 0, 0⟩
  else none

/-- State of a Temperature object: the stored Kelvin Decimal k. -/
structure Temperature where
  k : ℚ
deriving DecidableEq

/-- Effect of storing v into the k attribute (units.py lines 89-99 with name
    k): the store happens first, then the invariant check clamps k to 0 and
    raises ValueError carrying the offending value when v is negative. -/
def setK (v : ℚ) : Option PyErr × Temperature :=
  if v < 0 then (some (PyErr.valueError v), ⟨0⟩) else (none, ⟨v⟩)

/-- Body of Temperature.__setattr__ after the Decimal coercion produced v
    (units.py lines 89-99). A unit name stores the inverse affine transform
    into k through the recursive assignment self.k = ..., whose own
    clamp-and-raise fires first when the new Kelvin value is negative; the
    name k stores v directly; any other name leaves k untouched and the
    final invariant check sees the old k. -/
def Temperature.setattrDec (t : Temperature) (name : String) (v : ℚ) :
    Option PyErr × Temperature :=
  match equations name with
  | some eqn => setK ((v - eqn.shiftOut) / eqn.scale - eqn.shiftIn)
  | none =>
    if name = "k" then setK v
    else if t.k < 0 then (some (PyErr.valueError t.k), ⟨0⟩) else (none, t)

/-- Temperature.__setattr__ (units.py lines 89-99): value = Decimal(value)
    runs first, so a value Decimal cannot convert raises TypeError before
    anything is written. -/
def Temperature.setattr (t : Temperature) (name : String) (value : PyVal) :
    Option PyErr × Temperature :=
  match pyDecimal value with
  | some v => Temperature.setattrDec t name v
  | none => (some PyErr.typeError, t)

/-- Kwargs loop of Temperature.__init__ (units.py lines 77-80): the first key
    among c, f, r is written through setattr and the loop breaks; any other
    key is skipped. -/
def initLoop (t : Temperature) :
    List (String × PyVal) → Option PyErr × Temperature
  | [] => (none, t)
  | (key, v) :: rest =>
    if key = "c" ∨ key = "f" ∨ key = "r" then Temperature.setattr t key v
    else initLoop t rest

/-- Temperature.__init__ (units.py lines 75-80): self.k = k runs first and on
    failure the exception propagates before the kwargs loop runs (the
    partially constructed object, which on a conversion failure has no k
    attribute yet, is represented with k = 0). -/
def Temperature.init (kv : PyVal) (kwargs : List (String × PyVal)) :
    Option PyErr × Temperature :=
  match Temperature.setattr ⟨0⟩ "k" kv with
  | (some e, t) => (some e, t)
  | (none, t) => initLoop t kwargs

/-- Default of the positional parameter k of __init__ (0.0). -/
def initKDefault : PyVal := PyVal.num 0

/-- Attribute read: k is stored directly; c, f, r are recomputed on every
    read by __getattr__ (units.py lines 82-87) through the affine transform
    (k + shiftIn) * scale + shiftOut; any other name raises AttributeError,
    modelled as none. -/
def Temperature.getattr (t : Temperature) (name : String) : Option ℚ :=
  if name = "k" then some t.k
  else
    match equations name with
    | some eqn => some ((t.k + eqn.shiftIn) * eqn.scale + eqn.shiftOut)
    | none => none

/-- Right operand of a Temperature operator. Every operator begins with
    the test hasattr(other, k-attribute) and replaces a Temperature operand
    by its Kelvin value, leaving a bare numeric operand as it is. -/
inductive Operand where
  | temp : Temperature → Operand
  | num : ℚ → Operand
deriving DecidableEq

/-- Kelvin value the operator body works with after the hasattr reduction. -/
def Operand.kval : Operand → ℚ
  | Operand.temp t => t.k
  | Operand.num q => q

/-- Comparison __lt__ (units.py lines 109-112). -/
def Temperature.lt (t : Temperature) (o : Operand) : Bool :=
  decide (t.k < o.kval)

/-- Comparison __le__ (units.py lines 114-117). -/
def Temperature.le (t : Temperature) (o : Operand) : Bool :=
  decide (t.k ≤ o.kval)

/-- Comparison __gt__ (units.py lines 119-122). -/
def Temperature.gt (t : Temperature) (o : Operand) : Bool :=
  decide (o.kval < t.k)

/-- Comparison __ge__ (units.py lines 124-127). -/
def Temperature.ge (t : Temperature) (o : Operand) : Bool :=
  decide (o.kval ≤ t.k)

/-- Comparison __eq__ (units.py lines 129-132). -/
def Temperature.eq (t : Temperature) (o : Operand) : Bool :=
  decide (t.k = o.kval)

/-- Comparison __ne__ (units.py lines 134-137). -/
def Temperature.ne (t : Temperature) (o : Operand) : Bool :=
  decide (t.k ≠ o.kval)

/-- Operator __add__ (units.py lines 139-142): Temperature(self.k + other). -/
def Temperature.add (t : Temperature) (o : Operand) :
    Option PyErr × Temperature :=
  Temperature.init (PyVal.num (t.k + o.kval)) []

/-- Operator __sub__ (units.py lines 144-147): Temperature(self.k - other). -/
def Temperature.sub (t : Temperature) (o : Operand) :
    Option PyErr × Temperature :=
  Temperature.init (PyVal.num (t.k - o.kval)) []

/-- Operator __mul__ (units.py lines 149-152): Temperature(self.k * other). -/
def Temperature.mul (t : Temperature) (o : Operand) :
    Option PyErr × Temperature :=
  Temperature.init (PyVal.num (t.k * o.kval)) []

/-- Operator __div__ (units.py lines 154-157). Decimal division by zero
    raises before any construction; the pair then carries the untouched left
    operand in place of the never constructed result. -/
def Temperature.div (t : Temperature) (o : Operand) :
    Option PyErr × Temperature :=
  if o.kval = 0 then (some PyErr.zeroDivisionError, t)
  else Temperature.init (PyVal.num (t.k / o.kval)) []

/-- Operator __iadd__ (units.py lines 159-163): self.k = self.k + other. -/
def Temperature.iadd (t : Temperature) (o : Operand) :
    Option PyErr × Temperature :=
  Temperature.setattr t "k" (PyVal.num (t.k + o.kval))

/-- Operator __isub__ (units.py lines 165-169): self.k = self.k - other. -/
def Temperature.isub (t : Temperature) (o : Operand) :
    Option PyErr × Temperature :=
  Temperature.setattr t "k" (PyVal.num (t.k - o.kval))

/-- Operator __imul__ (units.py lines 171-175): self.k = self.k * other. -/
def Temperature.imul (t : Temperature) (o : Operand) :
    Option PyErr × Temperature :=
  Temperature.setattr t "k" (PyVal.num (t.k * o.kval))

/-- Operator __idiv__ (units.py lines 177-181), with the division-by-zero
    guard raising before the assignment to self.k happens. -/
def Temperature.idiv (t : Temperature) (o : Operand) :
    Option PyErr × Temperature :=
  if o.kval = 0 then (some PyErr.zeroDivisionError, t)
  else Temperature.setattr t "k" (PyVal.num (t.k / o.kval))

/-- Operator __sub__ together with the states of both operands after the
    call: the body only reads self.k and other.k and performs no attribute
    write on either operand, so both are returned unchanged next to the
    (raised error, new object) outcome. -/
def Temperature.subFrame (t1 t2 : Temperature) :
    (Option PyErr × Temperature) × Temperature × Temperature :=
  (Temperature.sub t1 (Operand.temp t2), t1, t2)

/-- Operator __isub__ together with the state of the right operand after the
    call: self is mutated in place and is already the second component of the
    pair; the right operand is never written. -/
def Temperature.isubFrame (t1 t2 : Temperature) :
    (Option PyErr × Temperature) × Temperature :=
  (Temperature.isub t1 (Operand.temp t2), t2)

/-- Conversion __float__ (units.py lines 189-190): float(self.k), the Kelvin
    magnitude (binary float rounding is below the granularity of this exact
    model). -/
def Temperature.toFloat (t : Temperature) : ℚ := t.k

/-- Transport response of api.getDeviceHeartbeat (devices.py lines 50-57):
    status id, raw payload DA, and a server timestamp in milliseconds. -/
structure HeartbeatResponse (ρ : Type) where
  id : Int
  DA : ρ
  timestamp : Int

/-- Mutable device state touched by heartbeat: data, last_heartbeat (an
    abstract wall clock reading), last_read (the whole seconds value passed
    to datetime.utcfromtimestamp). -/
structure DeviceState (α : Type) where
  data : Option α
  lastHeartbeat : Option Nat
  lastRead : Option Int
deriving DecidableEq

/-- An event fired through the Events mechanism, with the payload arguments
    that devices.py lines 61-63 pass to it. -/
inductive DevEvent (α : Type) where
  | heartbeat : Option α → DevEvent α
  | change : Option α → Option α → DevEvent α
deriving DecidableEq

/-- Device.heartbeat (devices.py lines 50-65). The parse argument is the
    type-specific _parse hook; now is the wall clock read by
    datetime.utcnow(). Returns the new device state, the list of events
    fired in order, and the returned pair (self.last_read, self.data).
    Floor division models the Python 2 integer division last_read / 1000. -/
def Device.heartbeat {ρ α : Type} [DecidableEq α] (parse : ρ → α) (now : Nat)
    (resp : HeartbeatResponse ρ) (silent : Bool) (s : DeviceState α) :
    DeviceState α × List (DevEvent α) × (Option Int × Option α) :=
  if resp.id = 0 then
    let previousData := s.data
    let s1 : DeviceState α :=
      ⟨some (parse resp.DA), some now, some (Int.fdiv resp.timestamp 1000)⟩
    let events :=
      if silent then []
      else
        DevEvent.heartbeat s1.data ::
          (if s1.data ≠ previousData then
            [DevEvent.change s1.data previousData]
          else [])
    (s1, events, (s1.lastRead, s1.data))
  else
    (s, [], (s.lastRead, s.data))

/-- Entry stored under the data key of the dict built by Device.asDict:
    either the raw parsed value or, on the for_json path, a plain number. -/
inductive DataDictEntry (α : Type) where
  | raw : Option α → DataDictEntry α
  | jsonNum : ℚ → DataDictEntry α
deriving DecidableEq

/-- Arguments supplied by the call of _dataToJSON inside Device.asDict
    (devices.py line 83): the bound self plus one explicit argument. -/
def dataToJSONArgsSupplied : Nat := 2

/-- Parameters declared by TemperatureSensor._dataToJSON (devices.py line
    112): only self. The base Device._dataToJSON (line 103) declares the
    same single parameter. -/
def dataToJSONParamsDeclared : Nat := 1

/-- Data entry produced by asDict on a TemperatureSensor (devices.py lines
    67-84 and 112-113). A Python call raises TypeError when the number of
    supplied arguments differs from the number of declared parameters;
    otherwise the body float(self.data) would yield the Kelvin magnitude
    (float(None) would raise TypeError as well). -/
def TemperatureSensor.asDictData (s : DeviceState Temperature)
    (forJson : Bool) : Except PyErr (DataDictEntry Temperature) :=
  if forJson then
    if dataToJSONArgsSupplied = dataToJSONParamsDeclared then
      match s.data with
      | some t => Except.ok (DataDictEntry.jsonNum (Temperature.toFloat t))
      | none => Except.error PyErr.typeError
    else Except.error PyErr.typeError
  else Except.ok (DataDictEntry.raw s.data)

/-- Parse hook of TemperatureSensor (devices.py lines 109-110):
    Temperature(c=data). -/
def TemperatureSensor.parse (raw : ℚ) : Option PyErr × Temperature :=
  Temperature.init initKDefault [("c", PyVal.num raw)]

/-! Helper lemmas shared by the claim proofs. -/

theorem setK_of_neg {v : ℚ} (h : v < 0) :
    setK v = (some (PyErr.valueError v), ⟨0⟩) := by
  unfold setK
  rw [if_pos h]

theorem setK_of_nonneg {v : ℚ} (h : 0 ≤ v) :
    setK v = (none, ⟨v⟩) := by
  unfold setK
  rw [if_neg (not_lt.mpr h)]

theorem setK_zero : setK 0 = (none, ⟨0⟩) := by
  simp [setK]

theorem setK_nonneg (v : ℚ) : 0 ≤ (setK v).2.k := by
  unfold setK
  split_ifs with h
  · exact le_refl 0
  · exact not_lt.mp h

theorem setattr_k (t : Temperature) (v : ℚ) :
    Temperature.setattr t "k" (PyVal.num v) = setK v := by
  simp [Temperature.setattr, pyDecimal, Temperature.setattrDec, equations]

theorem init_k (v : ℚ) :
    Temperature.init (PyVal.num v) [] = setK v := by
  unfold Temperature.init
  rw [setattr_k]
  by_cases h : v < 0
  · rw [setK_of_neg h]
  · rw [setK_of_nonneg (not_lt.mp h)]
    rfl

theorem setattrDec_nonneg (t : Temperature) (name : String) (v : ℚ)
    (ht : 0 ≤ t.k) : 0 ≤ (Temperature.setattrDec t name v).2.k := by
  cases h : equations name with
  | none =>
    simp only [Temperature.setattrDec, h]
    split_ifs with h1 h2
    · exact setK_nonneg _
    · exact le_refl 0
    · exact ht
  | some eqn =>
    simp only [Temperature.setattrDec, h]
    exact setK_nonneg _

theorem setattr_nonneg (t : Temperature) (name : String) (value : PyVal)
    (ht : 0 ≤ t.k) : 0 ≤ (Temperature.setattr t name value).2.k := by
  cases value with
  | num q =>
    simp only [Temperature.setattr, pyDecimal]
    exact setattrDec_nonneg t name q ht
  | nonNumeric =>
    simp only [Temperature.setattr, pyDecimal]
    exact ht

theorem initLoop_nonneg (t : Temperature) (ht : 0 ≤ t.k) :
    ∀ kwargs : List (String × PyVal), 0 ≤ (initLoop t kwargs).2.k := by
  intro kwargs
  induction kwargs with
  | nil => exact ht
  | cons hd rest ih =>
    obtain ⟨key, v⟩ := hd
    simp only [initLoop]
    split_ifs with h
    · exact setattr_nonneg t key v ht
    · exact ih

theorem init_nonneg (kv : PyVal) (kwargs : List (String × PyVal)) :
    0 ≤ (Temperature.init kv kwargs).2.k := by
  have h0 : 0 ≤ (Temperature.setattr ⟨0⟩ "k" kv).2.k :=
    setattr_nonneg ⟨0⟩ "k" kv (le_refl 0)
  unfold Temperature.init
  cases h : Temperature.setattr ⟨0⟩ "k" kv with
  | mk e t0 =>
    rw [h] at h0
    cases e with
    | none => exact initLoop_nonneg t0 h0 kwargs
    | some e0 => exact h0

theorem init_c (x : ℚ) :
    Temperature.init initKDefault [("c", PyVal.num x)]
      = setK (x + 273.15) := by
  simp [Temperature.init, initKDefault, setK_zero, initLoop,
        Temperature.setattr, pyDecimal, Temperature.setattrDec, equations]

theorem init_f (x : ℚ) :
    Temperature.init initKDefault [("f", PyVal.num x)]
      = setK ((x - 32) / 1.8 + 273.15) := by
  simp [Temperature.init, initKDefault, setK_zero, initLoop,
        Temperature.setattr, pyDecimal, Temperature.setattrDec, equations]

theorem init_r (x : ℚ) :
    Temperature.init initKDefault [("r", PyVal.num x)]
      = setK (x / 1.8) := by
  simp [Temperature.init, initKDefault, setK_zero, initLoop,
        Temperature.setattr, pyDecimal, Temperature.setattrDec, equations]

/-- C1: a heartbeat whose transport response has id 0 updates data to the
    parse of the DA payload field and lastRead to the server millisecond
    timestamp floor-divided to seconds, in the same call, while a call whose
    response has any nonzero id changes no component of the device state
    (data, lastRead, lastHeartbeat), fires no events, and returns the pair
    (lastRead, data) of the pre-call state. -/
theorem Device.heartbeat_success_and_failure {ρ α : Type} [DecidableEq α]
    (parse : ρ → α) (now : Nat) (okResp badResp : HeartbeatResponse ρ)
    (silent : Bool) (s : DeviceState α)
    (hok : okResp.id = 0) (hbad : badResp.id ≠ 0) :
    (Device.heartbeat parse now okResp silent s).1.data
        = some (parse okResp.DA) ∧
    (Device.heartbeat parse now okResp silent s).1.lastRead
        = some (Int.fdiv okResp.timestamp 1000) ∧
    (Device.heartbeat parse now badResp silent s).1 = s ∧
    (Device.heartbeat parse now badResp silent s).2.1 = [] ∧
    (Device.heartbeat parse now badResp silent s).2.2
        = (s.lastRead, s.data) := by
  refine ⟨?_, ?_, ?_, ?_, ?_⟩ <;> simp [Device.heartbeat, hok, hbad]

/-- Witness for C1 at concrete inputs: one successful and one failed poll. -/
theorem Device.heartbeat_success_and_failure_check :
    (Device.heartbeat (fun r : Int => r) 5 ⟨0, 7, 123456⟩ false
        ⟨some 3, some 2, some 9⟩).1.data = some 7 ∧
    (Device.heartbeat (fun r : Int => r) 5 ⟨0, 7, 123456⟩ false
        ⟨some 3, some 2, some 9⟩).1.lastRead = some 123 ∧
    (Device.heartbeat (fun r : Int => r) 5 ⟨4, 8, 999⟩ false
        ⟨some 3, some 2, some 9⟩).1 = ⟨some 3, some 2, some 9⟩ ∧
    (Device.heartbeat (fun r : Int => r) 5 ⟨4, 8, 999⟩ false
        ⟨some 3, some 2, some 9⟩).2.1 = [] ∧
    (Device.heartbeat (fun r : Int => r) 5 ⟨4, 8, 999⟩ false
        ⟨some 3, some 2, some 9⟩).2.2 = (some 9, some 3) := by
  have h := Device.heartbeat_success_and_failure (fun r : Int => r) 5
    ⟨0, 7, 123456⟩ ⟨4, 8, 999⟩ false ⟨some 3, some 2, some 9⟩ rfl (by decide)
  obtain ⟨h1, h2, h3, h4, h5⟩ := h
  refine ⟨h1, ?_, h3, h4, h5⟩
  rw [h2]
  decide

/-- C2: on a successful poll with silent false the HEARTBEAT event fires
    exactly once carrying the new data, first, and the CHANGE event fires,
    carrying the new data and the previous snapshot, exactly when the new
    parsed data differs from the previous data under value equality; with
    silent true no event fires although the state still updates. -/
theorem Device.heartbeat_event_rules {ρ α : Type} [DecidableEq α]
    (parse : ρ → α) (now : Nat) (resp : HeartbeatResponse ρ)
    (s : DeviceState α) (hok : resp.id = 0) :
    ((Device.heartbeat parse now resp false s).2.1
        = if some (parse resp.DA) = s.data then
            [DevEvent.heartbeat (some (parse resp.DA))]
          else
            [DevEvent.heartbeat (some (parse resp.DA)),
             DevEvent.change (some (parse resp.DA)) s.data]) ∧
    ((Device.heartbeat parse now resp false s).2.1.count
        (DevEvent.heartbeat (some (parse resp.DA))) = 1) ∧
    ((DevEvent.change (some (parse resp.DA)) s.data
        ∈ (Device.heartbeat parse now resp false s).2.1)
      ↔ some (parse resp.DA) ≠ s.data) ∧
    (Device.heartbeat parse now resp true s).2.1 = [] ∧
    (Device.heartbeat parse now resp true s).1.data
        = some (parse resp.DA) := by
  by_cases hchg : some (parse resp.DA) = s.data <;>
    refine ⟨?_, ?_, ?_, ?_, ?_⟩ <;>
      simp [Device.heartbeat, hok, hchg, List.count_cons, List.count_nil]

/-- Witness for C2 at concrete inputs where the new data differs from the
    previous data. -/
theorem Device.heartbeat_event_rules_check :
    (Device.heartbeat (fun r : Int => r) 4 ⟨0, 7, 2000⟩ false
        ⟨some 3, none, none⟩).2.1
      = [DevEvent.heartbeat (some 7), DevEvent.change (some 7) (some 3)] ∧
    (Device.heartbeat (fun r : Int => r) 4 ⟨0, 7, 2000⟩ true
        ⟨some 3, none, none⟩).2.1 = [] := by
  have h := Device.heartbeat_event_rules (fun r : Int => r) 4 ⟨0, 7, 2000⟩
    ⟨some 3, none, none⟩ rfl
  refine ⟨?_, h.2.2.2.1⟩
  have h1 := h.1
  simpa using h1

/-- C3: every Temperature mutation whose resulting Kelvin value would be
    negative raises ValueError and leaves the mutated object with k equal to
    0 (clamp then raise): shown for construction, for a unit attribute
    write, for in-place subtraction and for the object constructed by plain
    subtraction; and k is nonnegative after every operation on an object
    satisfying the invariant, whether the operation succeeded or failed. -/
theorem Temperature.clamp_then_raise
    (t : Temperature) (o : Operand) (name uname : String)
    (v : PyVal) (q w : ℚ) (eqn : TempEq) (kv : PyVal)
    (kwargs : List (String × PyVal))
    (ht : 0 ≤ t.k) (hq : q < 0) (hu : equations uname = some eqn)
    (hw : (w - eqn.shiftOut) / eqn.scale - eqn.shiftIn < 0)
    (ho : t.k - o.kval < 0) :
    Temperature.init (PyVal.num q) [] = (some (PyErr.valueError q), ⟨0⟩) ∧
    Temperature.setattr t uname (PyVal.num w)
      = (some (PyErr.valueError ((w - eqn.shiftOut) / eqn.scale - eqn.shiftIn)),
         ⟨0⟩) ∧
    Temperature.isub t o
      = (some (PyErr.valueError (t.k - o.kval)), ⟨0⟩) ∧
    Temperature.sub t o
      = (some (PyErr.valueError (t.k - o.kval)), ⟨0⟩) ∧
    0 ≤ (Temperature.setattr t name v).2.k ∧
    0 ≤ (Temperature.init kv kwargs).2.k ∧
    0 ≤ (Temperature.add t o).2.k ∧
    0 ≤ (Temperature.sub t o).2.k ∧
    0 ≤ (Temperature.mul t o).2.k ∧
    0 ≤ (Temperature.div t o).2.k ∧
    0 ≤ (Temperature.iadd t o).2.k ∧
    0 ≤ (Temperature.isub t o).2.k ∧
    0 ≤ (Temperature.imul t o).2.k ∧
    0 ≤ (Temperature.idiv t o).2.k := by
  have hdiv : 0 ≤ (Temperature.div t o).2.k := by
    unfold Temperature.div
    split_ifs with h0
    · exact ht
    · exact init_nonneg _ _
  have hidiv : 0 ≤ (Temperature.idiv t o).2.k := by
    unfold Temperature.idiv
    split_ifs with h0
    · exact ht
    · exact setattr_nonneg _ _ _ ht
  refine ⟨?_, ?_, ?_, ?_, setattr_nonneg _ _ _ ht, init_nonneg _ _,
    init_nonneg _ _, init_nonneg _ _, init_nonneg _ _, hdiv,
    setattr_nonneg _ _ _ ht, setattr_nonneg _ _ _ ht,
    setattr_nonneg _ _ _ ht, hidiv⟩
  · rw [init_k, setK_of_neg hq]
  · simp only [Temperature.setattr, pyDecimal, Temperature.setattrDec, hu]
    exact setK_of_neg hw
  · unfold Temperature.isub
    rw [setattr_k]
    exact setK_of_neg ho
  · unfold Temperature.sub
    rw [init_k]
    exact setK_of_neg ho

/-- Witness for C3 at concrete inputs: a negative construction, a Celsius
    write below absolute zero, and a subtraction crossing below 0 K. -/
theorem Temperature.clamp_then_raise_check :
    Temperature.init (PyVal.num (-5)) []
      = (some (PyErr.valueError (-5)), ⟨0⟩) ∧
    Temperature.isub ⟨1⟩ (Operand.num 2)
      = (some (PyErr.valueError (1 - 2)), ⟨0⟩) ∧
    0 ≤ (Temperature.sub ⟨1⟩ (Operand.num 2)).2.k := by
  have h := Temperature.clamp_then_raise ⟨1⟩ (Operand.num 2) "x" "c"
    (PyVal.num 3) (-5) (-300) ⟨1, 0, -273.15⟩ initKDefault []
    (by norm_num) (by norm_num) (by simp [equations]) (by norm_num)
    (by norm_num [Operand.kval])
  exact ⟨h.1, h.2.2.1, h.2.2.2.2.2.2.2.1⟩

/-- C4: constructing a Temperature from a Celsius value admitting a
    temperature at or above 0 K and reading the c attribute back returns
    exactly that value in the exact-rational model of Decimal; the same
    round-trip holds for Fahrenheit and Rankine; and every unit read follows
    the affine transform (k + shiftIn) * scale + shiftOut of the equations
    table, every unit write storing the k obtained by inverting it. -/
theorem Temperature.unit_roundtrip (c0 f0 r0 : ℚ) (t : Temperature)
    (hc : 0 ≤ c0 + 273.15) (hf : 0 ≤ (f0 - 32) / 1.8 + 273.15)
    (hr : 0 ≤ r0 / 1.8) :
    Temperature.getattr
        (Temperature.init initKDefault [("c", PyVal.num c0)]).2 "c"
      = some c0 ∧
    Temperature.getattr
        (Temperature.init initKDefault [("f", PyVal.num f0)]).2 "f"
      = some f0 ∧
    Temperature.getattr
        (Temperature.init initKDefault [("r", PyVal.num r0)]).2 "r"
      = some r0 ∧
    (∀ u eqn, equations u = some eqn →
      Temperature.getattr t u
        = some ((t.k + eqn.shiftIn) * eqn.scale + eqn.shiftOut)) := by
  refine ⟨?_, ?_, ?_, ?_⟩
  · rw [init_c, setK_of_nonneg hc]
    simp [Temperature.getattr, equations]
    try ring
  · rw [init_f, setK_of_nonneg hf]
    simp [Temperature.getattr, equations]
    try ring
  · rw [init_r, setK_of_nonneg hr]
    simp [Temperature.getattr, equations]
    try ring
  · intro u eqn he
    by_cases hu : u = "k"
    · subst hu
      simp [equations] at he
    · simp [Temperature.getattr, hu, he]

/-- Witness for C4 at concrete inputs: 20 Celsius, 212 Fahrenheit, 9
    Rankine, and an affine read of the f attribute at 300 K. -/
theorem Temperature.unit_roundtrip_check :
    Temperature.getattr
        (Temperature.init initKDefault [("c", PyVal.num 20)]).2 "c"
      = some 20 ∧
    Temperature.getattr
        (Temperature.init initKDefault [("f", PyVal.num 212)]).2 "f"
      = some 212 ∧
    Temperature.getattr
        (Temperature.init initKDefault [("r", PyVal.num 9)]).2 "r"
      = some 9 ∧
    Temperature.getattr ⟨300⟩ "f" = some 80.33 := by
  have h := Temperature.unit_roundtrip 20 212 9 ⟨300⟩
    (by norm_num) (by norm_num) (by norm_num)
  refine ⟨h.1, h.2.1, h.2.2.1, ?_⟩
  have h4 := h.2.2.2 "f" ⟨1.8, -273.15, 32⟩ (by simp [equations])
  rw [h4]
  norm_num

/-- C5: the for_json branch of Device.asDict calls _dataToJSON with one
    explicit argument although every _dataToJSON in devices.py declares only
    self, so the call raises TypeError for every TemperatureSensor state
    instead of returning the plain float (Kelvin magnitude) of the stored
    Temperature that the hook body would produce. -/
theorem TemperatureSensor.asDict_forJson_raises
    (s : DeviceState Temperature) :
    TemperatureSensor.asDictData s true = Except.error PyErr.typeError := by
  simp [TemperatureSensor.asDictData, dataToJSONArgsSupplied,
        dataToJSONParamsDeclared]

/-- C6: with t1 = Temperature(k=40) and t2 = Temperature(f=212), which
    stores 373.15 Kelvin, t2 - t1 succeeds with 333.15 Kelvin while t1 - t2
    raises the invalid temperature ValueError at -333.15: subtraction acts
    on the Kelvin magnitudes in left-minus-right order. -/
theorem Temperature.sub_scenario :
    Temperature.init (PyVal.num 40) [] = (none, ⟨40⟩) ∧
    Temperature.init initKDefault [("f", PyVal.num 212)]
      = (none, ⟨373.15⟩) ∧
    Temperature.sub ⟨373.15⟩ (Operand.temp ⟨40⟩) = (none, ⟨333.15⟩) ∧
    Temperature.sub ⟨40⟩ (Operand.temp ⟨373.15⟩)
      = (some (PyErr.valueError (-333.15)), ⟨0⟩) := by
  refine ⟨?_, ?_, ?_, ?_⟩
  · rw [init_k, setK_of_nonneg (by norm_num)]
  · rw [init_f]
    have h : ((212 : ℚ) - 32) / 1.8 + 273.15 = 373.15 := by norm_num
    rw [h, setK_of_nonneg (by norm_num)]
  · unfold Temperature.sub
    rw [init_k, setK_of_nonneg (by norm_num [Operand.kval])]
    norm_num [Operand.kval]
  · unfold Temperature.sub
    rw [init_k, setK_of_neg (by norm_num [Operand.kval])]
    norm_num [Operand.kval]

/-- C7: all six comparison operators compare by Kelvin value: against a
    Temperature operand the result is the comparison with the operand k,
    against a bare numeric operand the comparison with the number read as
    Kelvin directly. -/
theorem Temperature.comparisons_by_kelvin (t u : Temperature) (q : ℚ) :
    (Temperature.lt t (Operand.temp u) = decide (t.k < u.k)) ∧
    (Temperature.lt t (Operand.num q) = decide (t.k < q)) ∧
    (Temperature.le t (Operand.temp u) = decide (t.k ≤ u.k)) ∧
    (Temperature.le t (Operand.num q) = decide (t.k ≤ q)) ∧
    (Temperature.gt t (Operand.temp u) = decide (u.k < t.k)) ∧
    (Temperature.gt t (Operand.num q) = decide (q < t.k)) ∧
    (Temperature.ge t (Operand.temp u) = decide (u.k ≤ t.k)) ∧
    (Temperature.ge t (Operand.num q) = decide (q ≤ t.k)) ∧
    (Temperature.eq t (Operand.temp u) = decide (t.k = u.k)) ∧
    (Temperature.eq t (Operand.num q) = decide (t.k = q)) ∧
    (Temperature.ne t (Operand.temp u) = decide (t.k ≠ u.k)) ∧
    (Temperature.ne t (Operand.num q) = decide (t.k ≠ q)) := by
  exact ⟨rfl, rfl, rfl, rfl, rfl, rfl, rfl, rfl, rfl, rfl, rfl, rfl⟩

/-- C8: construction with no keyword arguments stores the default k = 0;
    construction with one alternate unit keyword stores the k obtained by
    inverting that unit affine transform (through the clamp-and-raise store
    setK); with several keywords only the first encountered in iteration
    order among c, f, r is honoured and the rest are ignored, keys outside
    c, f, r being skipped. -/
theorem Temperature.construction_kwargs (v : ℚ) (key other : String)
    (rest kwargs : List (String × PyVal)) (w w2 kv : PyVal)
    (hkey : key = "c" ∨ key = "f" ∨ key = "r")
    (hother : ¬(other = "c" ∨ other = "f" ∨ other = "r")) :
    Temperature.init initKDefault [] = (none, ⟨0⟩) ∧
    (∀ eqn, equations key = some eqn →
      Temperature.init initKDefault [(key, PyVal.num v)]
        = setK ((v - eqn.shiftOut) / eqn.scale - eqn.shiftIn)) ∧
    Temperature.init initKDefault ((key, w) :: rest)
      = Temperature.init initKDefault [(key, w)] ∧
    Temperature.init kv ((other, w2) :: kwargs)
      = Temperature.init kv kwargs := by
  refine ⟨?_, ?_, ?_, ?_⟩
  · simp [initKDefault, init_k, setK_zero]
  · intro eqn he
    have h1 : Temperature.init initKDefault [(key, PyVal.num v)]
        = Temperature.setattr ⟨0⟩ key (PyVal.num v) := by
      rcases hkey with h | h | h <;> subst h <;>
        simp [Temperature.init, initKDefault, setattr_k, setK_zero, initLoop]
    rw [h1]
    simp only [Temperature.setattr, pyDecimal, Temperature.setattrDec, he]
  · rcases hkey with h | h | h <;> subst h <;>
      simp [Temperature.init, initKDefault, setattr_k, setK_zero, initLoop]
  · unfold Temperature.init
    cases h : Temperature.setattr ⟨0⟩ "k" kv with
    | mk e t0 =>
      cases e with
      | some e0 => rfl
      | none => simp [initLoop, hother]

/-- Witness for C8: empty construction, an f keyword honoured ahead of a
    later c keyword, and a skipped unknown keyword. -/
theorem Temperature.construction_kwargs_check :
    Temperature.init initKDefault [] = (none, ⟨0⟩) ∧
    Temperature.init initKDefault [("f", PyVal.num 212), ("c", PyVal.num 5)]
      = Temperature.init initKDefault [("f", PyVal.num 212)] ∧
    Temperature.init initKDefault [("zz", PyVal.num 1), ("r", PyVal.num 2)]
      = Temperature.init initKDefault [("r", PyVal.num 2)] := by
  have h := Temperature.construction_kwargs 212 "f" "zz"
    [("c", PyVal.num 5)] [("r", PyVal.num 2)] (PyVal.num 212) (PyVal.num 1)
    initKDefault (Or.inr (Or.inl rfl)) (by simp)
  exact ⟨h.1, h.2.2.1, h.2.2.2⟩

/-- C9: when t1.k < t2.k the plain difference t1 - t2 raises the invalid
    temperature ValueError yet leaves both operands unchanged, the clamp to
    0 hitting only the newly constructed result object, which the caller
    never receives, while the in-place form degrades t1 itself to k = 0. -/
theorem Temperature.sub_frame_effects (t1 t2 : Temperature)
    (h : t1.k < t2.k) :
    (Temperature.subFrame t1 t2).1
      = (some (PyErr.valueError (t1.k - t2.k)), ⟨0⟩) ∧
    (Temperature.subFrame t1 t2).2.1 = t1 ∧
    (Temperature.subFrame t1 t2).2.2 = t2 ∧
    (Temperature.isubFrame t1 t2).1
      = (some (PyErr.valueError (t1.k - t2.k)), ⟨0⟩) ∧
    (Temperature.isubFrame t1 t2).2 = t2 := by
  have hneg : t1.k - t2.k < 0 := sub_neg.mpr h
  refine ⟨?_, rfl, rfl, ?_, rfl⟩
  · show Temperature.sub t1 (Operand.temp t2) = _
    unfold Temperature.sub
    simp only [Operand.kval]
    rw [init_k]
    exact setK_of_neg hneg
  · show Temperature.isub t1 (Operand.temp t2) = _
    unfold Temperature.isub
    simp only [Operand.kval]
    rw [setattr_k]
    exact setK_of_neg hneg

/-- Witness for C9 with t1 = 40 K and t2 = 373.15 K. -/
theorem Temperature.sub_frame_effects_check :
    (Temperature.subFrame ⟨40⟩ ⟨373.15⟩).1
      = (some (PyErr.valueError (-333.15)), ⟨0⟩) ∧
    (Temperature.subFrame ⟨40⟩ ⟨373.15⟩).2.1 = ⟨40⟩ ∧
    (Temperature.subFrame ⟨40⟩ ⟨373.15⟩).2.2 = ⟨373.15⟩ ∧
    (Temperature.isubFrame ⟨40⟩ ⟨373.15⟩).1
      = (some (PyErr.valueError (-333.15)), ⟨0⟩) ∧
    (Temperature.isubFrame ⟨40⟩ ⟨373.15⟩).2 = ⟨373.15⟩ := by
  have h := Temperature.sub_frame_effects ⟨40⟩ ⟨373.15⟩ (by norm_num)
  obtain ⟨h1, h2, h3, h4, h5⟩ := h
  refine ⟨?_, h2, h3, ?_, h5⟩
  · rw [h1]
    norm_num
  · rw [h4]
    norm_num

/-- C10: every attribute write coerces the written value through the exact
    Decimal conversion first: a non-convertible value raises TypeError with
    the object untouched, a convertible value proceeds with exactly the
    converted rational, and the constructor k store as well as the
    arithmetic k updates route through this same coerced write, so k stays
    an exact decimal after every successful operation. -/
theorem Temperature.setattr_decimal_coercion (t : Temperature)
    (name : String) (v : PyVal) (q : ℚ) (o : Operand)
    (hv : pyDecimal v = none) :
    Temperature.setattr t name v = (some PyErr.typeError, t) ∧
    Temperature.setattr t name (PyVal.num q)
      = Temperature.setattrDec t name q ∧
    Temperature.init (PyVal.num q) [] = Temperature.setattrDec ⟨0⟩ "k" q ∧
    Temperature.iadd t o
      = Temperature.setattr t "k" (PyVal.num (t.k + o.kval)) ∧
    Temperature.sub t o
      = Temperature.init (PyVal.num (t.k - o.kval)) [] := by
  refine ⟨?_, rfl, ?_, rfl, rfl⟩
  · cases v with
    | num q2 => simp [pyDecimal] at hv
    | nonNumeric => rfl
  · rw [init_k]
    show setK q = Temperature.setattrDec ⟨0⟩ "k" q
    simp [Temperature.setattrDec, equations]

/-- Witness for C10: a None write fails with the object untouched while a
    numeric write proceeds with the converted value. -/
theorem Temperature.setattr_decimal_coercion_check :
    Temperature.setattr ⟨1⟩ "c" PyVal.nonNumeric
      = (some PyErr.typeError, ⟨1⟩) ∧
    Temperature.setattr ⟨1⟩ "c" (PyVal.num 5)
      = Temperature.setattrDec ⟨1⟩ "c" 5 := by
  have h := Temperature.setattr_decimal_coercion ⟨1⟩ "c" PyVal.nonNumeric 5
    (Operand.num 2) rfl
  exact ⟨h.1, h.2.1⟩
